import Mathlib

/-!
Verification development for the Network Cartographer repository.

The definitions below are shallow embeddings of the TypeScript/JavaScript
source: the shared zod schema (shared/schema.ts), the in-memory scenario
store (server/storage.ts) and route registration (server/routes.ts), the
client-side derived-state computations in DeviceFilter.tsx, NetworkCanvas.tsx,
LearningPrompts.tsx and EventNotifications.tsx, and the key-parity checker in
scripts/i18n-validate.js.  JavaScript strings are modelled as Lean strings,
JS arrays as lists, JS Map/Set as insertion-ordered association lists and
finite sets, and React component state as explicit state records acted on by
the event handlers.
-/

namespace NetCarto

/-! ## JavaScript string primitives -/

/-- Boolean test that the list q is a prefix of s (character-wise equality). -/
def charsStart : List Char → List Char → Bool
  | [], _ => true
  | _ :: _, [] => false
  | a :: as, b :: bs => a == b && charsStart as bs

/-- Boolean test that q occurs contiguously inside s, as JavaScript
String.prototype.includes does (the empty string occurs in every string). -/
def charsContains (q : List Char) : List Char → Bool
  | [] => q.isEmpty
  | c :: rest => charsStart q (c :: rest) || charsContains q rest

/-- Embedding of JS s.includes(q). -/
def jsIncludes (s q : String) : Bool :=
  charsContains q.data s.data

/-- Declarative substring relation used to state claims: q occurs inside s. -/
def Substr (q s : String) : Prop :=
  ∃ l r : List Char, s.data = l ++ q.data ++ r

theorem charsStart_iff (q s : List Char) :
    charsStart q s = true ↔ ∃ r, s = q ++ r := by
  induction q generalizing s with
  | nil => simp [charsStart]
  | cons a as ih =>
    cases s with
    | nil => simp [charsStart]
    | cons b bs =>
      simp only [charsStart, Bool.and_eq_true, beq_iff_eq, ih, List.cons_append,
        List.cons.injEq]
      constructor
      · rintro ⟨rfl, r, rfl⟩; exact ⟨r, rfl, rfl⟩
      · rintro ⟨r, rfl, rfl⟩; exact ⟨rfl, r, rfl⟩

theorem charsContains_iff (q s : List Char) :
    charsContains q s = true ↔ ∃ l r, s = l ++ q ++ r := by
  induction s with
  | nil =>
    simp only [charsContains, List.isEmpty_iff]
    constructor
    · rintro rfl; exact ⟨[], [], rfl⟩
    · rintro ⟨l, r, h⟩
      exact (List.append_eq_nil.mp (List.append_eq_nil.mp h.symm).1).2
  | cons c rest ih =>
    simp only [charsContains, Bool.or_eq_true, charsStart_iff, ih]
    constructor
    · rintro (⟨r, hr⟩ | ⟨l, r, hr⟩)
      · exact ⟨[], r, by simpa using hr⟩
      · exact ⟨c :: l, r, by simp [hr]⟩
    · rintro ⟨l, r, hr⟩
      cases l with
      | nil => exact Or.inl ⟨r, by simpa using hr⟩
      | cons x xs =>
        rcases List.cons.injEq .. ▸ hr with ⟨_, h2⟩
        exact Or.inr ⟨xs, r, by simpa using h2⟩

theorem jsIncludes_iff (s q : String) : jsIncludes s q = true ↔ Substr q s := by
  simp only [jsIncludes, charsContains_iff, Substr]

/-! ## JavaScript Map as an insertion-ordered association list -/

/-- Embedding of JS Map.prototype.set: update the existing binding in place
if the key is present, otherwise append the binding at the end. -/
def jsMapSet {α : Type} (m : List (String × α)) (k : String) (v : α) :
    List (String × α) :=
  if m.any (fun kv => kv.1 == k) then
    m.map (fun kv => if kv.1 == k then (k, v) else kv)
  else
    m ++ [(k, v)]

/-- Embedding of JS Map.prototype.get (none for a missing key). -/
def jsMapGet {α : Type} (m : List (String × α)) (k : String) : Option α :=
  (m.find? (fun kv => kv.1 == k)).map (fun kv => kv.2)

theorem jsMapGet_append {α : Type} (m m' : List (String × α)) (k : String) :
    jsMapGet (m ++ m') k =
      ((m.find? (fun kv => kv.1 == k)).or (m'.find? (fun kv => kv.1 == k))).map
        (fun kv => kv.2) := by
  simp [jsMapGet, List.find?_append]

theorem find?_overwrite {α : Type} (m : List (String × α)) (k : String) (v : α) :
    (m.map (fun kv => if kv.1 == k then (k, v) else kv)).find?
        (fun kv => kv.1 == k) =
      ((m.find? (fun kv => kv.1 == k)).map (fun _ => (k, v))) := by
  induction m with
  | nil => simp
  | cons kv rest ih =>
    by_cases hk : kv.1 = k
    · rw [List.map_cons, if_pos (by simpa using hk),
        List.find?_cons_of_pos _ (by simp),
        List.find?_cons_of_pos _ (by simpa using hk)]
      simp
    · rw [List.map_cons, if_neg (by simpa using hk),
        List.find?_cons_of_neg _ (by simpa using hk),
        List.find?_cons_of_neg _ (by simpa using hk), ih]

theorem find?_overwrite_ne {α : Type} (m : List (String × α)) (k k' : String) (v : α)
    (h : k' ≠ k) :
    (m.map (fun kv => if kv.1 == k then (k, v) else kv)).find?
        (fun kv => kv.1 == k') =
      m.find? (fun kv => kv.1 == k') := by
  induction m with
  | nil => simp
  | cons kv rest ih =>
    by_cases hk : kv.1 = k
    · rw [List.map_cons, if_pos (by simpa using hk),
        List.find?_cons_of_neg _ (by simpa using Ne.symm h),
        List.find?_cons_of_neg _ (by simp [hk, Ne.symm h]), ih]
    · rw [List.map_cons, if_neg (by simpa using hk)]
      by_cases hk' : kv.1 = k'
      · rw [List.find?_cons_of_pos _ (by simpa using hk'),
          List.find?_cons_of_pos _ (by simpa using hk')]
      · rw [List.find?_cons_of_neg _ (by simpa using hk'),
          List.find?_cons_of_neg _ (by simpa using hk'), ih]

theorem find?_none_of_not_any {α : Type} (m : List (String × α)) (k : String)
    (h : m.any (fun kv => kv.1 == k) = false) :
    m.find? (fun kv => kv.1 == k) = none := by
  rw [List.any_eq_false] at h
  rw [List.find?_eq_none]
  intro kv hkv
  exact h kv hkv

theorem jsMapGet_set_self {α : Type} (m : List (String × α)) (k : String) (v : α) :
    jsMapGet (jsMapSet m k v) k = some v := by
  unfold jsMapSet
  split
  · rename_i hany
    rw [List.any_eq_true] at hany
    obtain ⟨kv, hkv, hk⟩ := hany
    have hsome : (m.find? (fun kv => kv.1 == k)).isSome := by
      rw [List.find?_isSome]; exact ⟨kv, hkv, hk⟩
    unfold jsMapGet
    rw [find?_overwrite]
    obtain ⟨w, hw⟩ := Option.isSome_iff_exists.mp hsome
    simp [hw]
  · rename_i hany
    unfold jsMapGet
    rw [List.find?_append, find?_none_of_not_any _ _ (Bool.eq_false_iff.mpr hany)]
    simp

theorem jsMapGet_set_ne {α : Type} (m : List (String × α)) (k k' : String) (v : α)
    (h : k' ≠ k) : jsMapGet (jsMapSet m k v) k' = jsMapGet m k' := by
  unfold jsMapSet
  split
  · unfold jsMapGet
    rw [find?_overwrite_ne _ _ _ _ h]
  · unfold jsMapGet
    rw [List.find?_append]
    have hkk : (k == k') = false := by simp [Ne.symm h]
    have : [(k, v)].find? (fun kv => kv.1 == k') = none := by
      simp [List.find?, hkk]
    rw [this]
    simp

/-! ## Data model (shared/schema.ts) -/

/-- deviceTypeSchema enum. -/
inductive DeviceType
  | router | laptop | phone | tablet | camera | smarttv | speaker
  | thermostat | printer | gaming | unknown
  deriving DecidableEq, Repr

/-- String value of a device type (zod enums are string unions in TS). -/
def DeviceType.str : DeviceType → String
  | .router => "router"
  | .laptop => "laptop"
  | .phone => "phone"
  | .tablet => "tablet"
  | .camera => "camera"
  | .smarttv => "smarttv"
  | .speaker => "speaker"
  | .thermostat => "thermostat"
  | .printer => "printer"
  | .gaming => "gaming"
  | .unknown => "unknown"

/-- riskFlagSchema enum. -/
inductive RiskFlag
  | iot_device | default_password | outdated_firmware
  | unknown_device | unencrypted_traffic | forgotten_device
  deriving DecidableEq, Repr

/-- securityTypeSchema enum. -/
inductive SecurityType
  | WPA2 | WPA3 | WEP | Open
  deriving DecidableEq, Repr

/-- environmentTypeSchema enum. -/
inductive EnvironmentType
  | home | business | public
  deriving DecidableEq, Repr

/-- zone enum of networkSchema. -/
inductive Zone
  | main | guest | iot
  deriving DecidableEq, Repr

/-- String value of a zone. -/
def Zone.str : Zone → String
  | .main => "main"
  | .guest => "guest"
  | .iot => "iot"

/-- layerModeSchema enum. -/
inductive LayerMode
  | link | network | transport | application
  deriving DecidableEq, Repr

/-- networkSchema. -/
structure Network where
  id : String
  ssid : String
  security : SecurityType
  subnet : String
  zone : Zone
  deriving DecidableEq, Repr

/-- deviceSchema (optional fields become Option). -/
structure Device where
  id : String
  type : DeviceType
  label : String
  networkId : String
  ip : String
  localId : String
  riskFlags : List RiskFlag
  description : Option String := none
  manufacturer : Option String := none
  openPorts : Option (List Nat) := none
  protocols : Option (List String) := none
  deriving DecidableEq, Repr

/-- environmentSchema. -/
structure Environment where
  type : EnvironmentType
  isp : String
  publicIp : String
  deriving DecidableEq, Repr

/-- learningPromptAnswerSchema. -/
structure LearningPromptAnswer where
  text : String
  isCorrect : Bool
  deriving DecidableEq, Repr

/-- learningPromptSchema. -/
structure LearningPrompt where
  id : String
  question : String
  answers : List LearningPromptAnswer
  explanation : String
  relatedLayer : Option LayerMode := none
  deriving DecidableEq, Repr

/-- trigger enum of eventSchema. -/
inductive EventTrigger
  | onEnter | onDeviceClick | onLayerChange
  deriving DecidableEq, Repr

/-- eventSchema. -/
structure NetworkEvent where
  id : String
  trigger : EventTrigger
  deviceId : Option String := none
  message : String
  deriving DecidableEq, Repr

/-- scenarioSchema. -/
structure Scenario where
  id : String
  title : String
  description : String
  environment : Environment
  networks : List Network
  devices : List Device
  events : List NetworkEvent
  learningPrompts : List LearningPrompt
  deriving DecidableEq, Repr

/-! ## Encryption status inference (NetworkCanvas.tsx, getEncryptionStatus) -/

/-- Static table of encrypted protocols (NetworkCanvas.tsx). -/
def encryptedProtocols : List String :=
  ["HTTPS", "SSH", "TLS", "SFTP", "WSS", "IMAPS", "SMTPS", "POP3S",
   "FTPS", "LDAPS", "DNSCrypt", "WireGuard", "OpenVPN", "IPSec",
   "iMessage", "Signal", "WhatsApp"]

/-- Static table of unencrypted protocols (NetworkCanvas.tsx). -/
def unencryptedProtocols : List String :=
  ["HTTP", "FTP", "Telnet", "RTSP", "SMTP", "POP3", "IMAP",
   "DNS", "NTP", "SNMP", "TFTP", "Gopher"]

/-- Result type of getEncryptionStatus. -/
inductive EncryptionStatus
  | encrypted | mixed | unencrypted | unknown
  deriving DecidableEq, Repr

/-- Embedding of getEncryptionStatus from NetworkCanvas.tsx. -/
def getEncryptionStatus (device : Device) : EncryptionStatus :=
  match device.protocols with
  | none => .unknown
  | some ps =>
    if ps.length = 0 then .unknown
    else
      let hasEncrypted := ps.any (fun p => encryptedProtocols.contains p)
      let hasUnencrypted := ps.any (fun p => unencryptedProtocols.contains p)
      if hasEncrypted && hasUnencrypted then .mixed
      else if hasEncrypted then .encrypted
      else if hasUnencrypted then .unencrypted
      else .unknown

/-- Protocol list of a device, empty when the field is absent. -/
def deviceProtocols (d : Device) : List String :=
  d.protocols.getD []

/-- C4: getEncryptionStatus returns unknown when the device lists no protocols
or none of its protocols appears in the encrypted or unencrypted tables; mixed
when its protocols include a member of each table; encrypted when they include
a member of the encrypted table and none of the unencrypted table; and
unencrypted in the symmetric case. -/
theorem getEncryptionStatus_spec (d : Device) :
    (getEncryptionStatus d = .unknown ↔
      deviceProtocols d = [] ∨ ∀ p ∈ deviceProtocols d,
        p ∉ encryptedProtocols ∧ p ∉ unencryptedProtocols) ∧
    (getEncryptionStatus d = .mixed ↔
      (∃ p ∈ deviceProtocols d, p ∈ encryptedProtocols) ∧
      (∃ p ∈ deviceProtocols d, p ∈ unencryptedProtocols)) ∧
    (getEncryptionStatus d = .encrypted ↔
      (∃ p ∈ deviceProtocols d, p ∈ encryptedProtocols) ∧
      ¬ ∃ p ∈ deviceProtocols d, p ∈ unencryptedProtocols) ∧
    (getEncryptionStatus d = .unencrypted ↔
      (∃ p ∈ deviceProtocols d, p ∈ unencryptedProtocols) ∧
      ¬ ∃ p ∈ deviceProtocols d, p ∈ encryptedProtocols) := by
  cases hp : d.protocols with
  | none => simp [getEncryptionStatus, deviceProtocols, hp]
  | some ps =>
    by_cases hnil : ps.length = 0
    · rw [List.length_eq_zero] at hnil
      subst hnil
      simp [getEncryptionStatus, deviceProtocols, hp]
    · have hne : ps ≠ [] := by
        intro hc; exact hnil (by simp [hc])
      by_cases he : ps.any (fun p => encryptedProtocols.contains p) = true <;>
        by_cases hu : ps.any (fun p => unencryptedProtocols.contains p) = true
      · rw [List.any_eq_true] at he hu
        simp only [List.elem_iff] at he hu
        have hres : getEncryptionStatus d = .mixed := by
          simp [getEncryptionStatus, hp, hnil, he, hu]
        rw [hres]
        simp only [deviceProtocols, hp, Option.getD_some]
        simp [he, hu, hne]
        obtain ⟨p, hp1, hp2⟩ := he
        exact ⟨p, hp1, fun hc => absurd hp2 hc⟩
      · rw [List.any_eq_true] at he
        rw [Bool.not_eq_true, List.any_eq_false] at hu
        simp only [List.elem_iff] at he hu
        have hcond : ¬ ∃ x ∈ ps, x ∈ unencryptedProtocols := by
          rintro ⟨p, hp1, hp2⟩; exact hu p hp1 hp2
        have hres : getEncryptionStatus d = .encrypted := by
          simp [getEncryptionStatus, hp, hnil, he, hcond]
        rw [hres]
        simp only [deviceProtocols, hp, Option.getD_some]
        simp [he, hu, hcond, hne]
        obtain ⟨p, hp1, hp2⟩ := he
        exact ⟨p, hp1, fun hc => absurd hp2 hc⟩
      · rw [List.any_eq_true] at hu
        rw [Bool.not_eq_true, List.any_eq_false] at he
        simp only [List.elem_iff] at he hu
        have hcond : ¬ ∃ x ∈ ps, x ∈ encryptedProtocols := by
          rintro ⟨p, hp1, hp2⟩; exact he p hp1 hp2
        have hres : getEncryptionStatus d = .unencrypted := by
          simp [getEncryptionStatus, hp, hnil, hu, hcond]
        rw [hres]
        simp only [deviceProtocols, hp, Option.getD_some]
        simp [he, hu, hcond, hne]
        obtain ⟨p, hp1, hp2⟩ := hu
        exact ⟨p, hp1, fun _ => hp2⟩
      · rw [Bool.not_eq_true, List.any_eq_false] at he hu
        simp only [List.elem_iff] at he hu
        have hconde : ¬ ∃ x ∈ ps, x ∈ encryptedProtocols := by
          rintro ⟨p, hp1, hp2⟩; exact he p hp1 hp2
        have hcondu : ¬ ∃ x ∈ ps, x ∈ unencryptedProtocols := by
          rintro ⟨p, hp1, hp2⟩; exact hu p hp1 hp2
        have hres : getEncryptionStatus d = .unknown := by
          simp [getEncryptionStatus, hp, hnil, hconde, hcondu]
        rw [hres]
        simp only [deviceProtocols, hp, Option.getD_some]
        simp [he, hu, hconde, hcondu, hne]
        exact fun p hp1 => ⟨he p hp1, hu p hp1⟩

/-! ## Layer Goggles device label (NetworkCanvas.tsx, getDeviceLabel) -/

/-- Static port-to-service table (NetworkCanvas.tsx). -/
def portToService (p : Nat) : Option String :=
  match p with
  | 22 => some "SSH"
  | 80 => some "HTTP"
  | 443 => some "HTTPS"
  | 445 => some "SMB"
  | 554 => some "RTSP"
  | 9100 => some "Print"
  | _ => none

/-- Embedding of JS s.slice(-8): the last eight characters (the whole string
when it is shorter). -/
def jsSliceLastEight (s : String) : String :=
  String.mk (s.data.drop (s.data.length - 8))

/-- Embedding of getDeviceLabel from NetworkCanvas.tsx. -/
def getDeviceLabel (device : Device) (activeLayer : LayerMode) : String :=
  match activeLayer with
  | .link => jsSliceLastEight device.localId
  | .network => device.ip
  | .transport =>
    match device.openPorts with
    | none => "—"
    | some ports =>
      if ports.length = 0 then "—"
      else
        String.intercalate ", "
          ((ports.take 2).map (fun p =>
            match portToService p with
            | some s => s
            | none => ":" ++ toString p))
  | .application =>
    match device.protocols with
    | none => "—"
    | some ps =>
      if ps.length = 0 then "—"
      else String.intercalate ", " (ps.take 2)

/-- Concrete device with a 17-character MAC-style localId. -/
def exampleLinkDevice : Device :=
  { id := "cam-1"
    type := .camera
    label := "Backyard Camera"
    networkId := "net-main"
    ip := "192.168.1.40"
    localId := "AA:BB:CC:DD:EE:FF"
    riskFlags := [] }

/-- C6 counterexample: in link mode the label is not the device's localId
(MAC address) but only its last eight characters, so the claim that the label
function displays the localId fails on any localId longer than eight
characters. -/
theorem getDeviceLabel_link_counterexample :
    getDeviceLabel exampleLinkDevice .link = "DD:EE:FF" ∧
    getDeviceLabel exampleLinkDevice .link ≠ exampleLinkDevice.localId := by
  constructor <;> decide

/-- Rendering of one open port per the amended claim: the service name from
the static port table, or a colon followed by the port number. -/
def portDisplay (p : Nat) : String :=
  match portToService p with
  | some s => s
  | none => ":" ++ toString p

/-- Amended claim label function, written from the amended claim text: link
mode shows the last eight characters of the localId, network mode the ip,
transport mode the first two open ports rendered via portDisplay joined by
a comma (an em dash when there are none), application mode the first two
protocols joined by a comma (an em dash when there are none). -/
def deviceLabelSpec (d : Device) (l : LayerMode) : String :=
  match l with
  | .link => String.mk ((d.localId.data.reverse.take 8).reverse)
  | .network => d.ip
  | .transport =>
    match d.openPorts with
    | none => "—"
    | some [] => "—"
    | some (p :: rest) =>
      String.intercalate ", " (((p :: rest).take 2).map portDisplay)
  | .application =>
    match d.protocols with
    | none => "—"
    | some [] => "—"
    | some (p :: rest) => String.intercalate ", " ((p :: rest).take 2)

/-- C6 amended: for every device and active layer, getDeviceLabel agrees with
the amended claim label function deviceLabelSpec. -/
theorem getDeviceLabel_amended (d : Device) (l : LayerMode) :
    getDeviceLabel d l = deviceLabelSpec d l := by
  cases l with
  | link =>
    show jsSliceLastEight d.localId = _
    unfold jsSliceLastEight deviceLabelSpec
    rw [List.take_reverse, List.reverse_reverse]
  | network => rfl
  | transport =>
    unfold getDeviceLabel deviceLabelSpec
    cases d.openPorts with
    | none => rfl
    | some ports =>
      cases ports with
      | nil => rfl
      | cons p rest => rfl
  | application =>
    unfold getDeviceLabel deviceLabelSpec
    cases d.protocols with
    | none => rfl
    | some ps =>
      cases ps with
      | nil => rfl
      | cons p rest => simp

/-! ## Device filtering (DeviceFilter.tsx, useDeviceFilter) -/

/-- DeviceFilters interface of DeviceFilter.tsx. -/
structure DeviceFilters where
  searchQuery : String
  deviceTypes : List String
  networkZones : List String
  showRisksOnly : Bool
  deriving DecidableEq, Repr

/-- Embedding of JS s.trim(): strip leading and trailing whitespace. -/
def jsTrim (s : String) : String :=
  String.mk
    (((s.data.dropWhile Char.isWhitespace).reverse.dropWhile
      Char.isWhitespace).reverse)

/-- Embedding of JS s.toLowerCase() (ASCII case folding, as in the data this
app handles). -/
def jsToLower (s : String) : String :=
  String.mk (s.data.map Char.toLower)

/-- Search predicate of useDeviceFilter: the (already lowercased) query must
occur in one of the listed fields, each lowercased. -/
def searchFields (query : String) (device : Device) : Bool :=
  jsIncludes (jsToLower device.label) query ||
  jsIncludes (jsToLower device.ip) query ||
  jsIncludes (jsToLower device.localId) query ||
  jsIncludes (jsToLower device.type.str) query ||
  (match device.manufacturer with
   | some m => jsIncludes (jsToLower m) query
   | none => false) ||
  (match device.protocols with
   | some ps => ps.any (fun p => jsIncludes (jsToLower p) query)
   | none => false) ||
  (match device.description with
   | some ds => jsIncludes (jsToLower ds) query
   | none => false)

/-- Zone predicate of useDeviceFilter: the device's networkId must resolve
(via find?) to a network whose zone string is among the selected zones. -/
def zoneFilterPred (networks : List Network) (zones : List String)
    (device : Device) : Bool :=
  match networks.find? (fun n => n.id == device.networkId) with
  | some n => zones.contains n.zone.str
  | none => false

/-- Embedding of useDeviceFilter from DeviceFilter.tsx: successive filter
passes for search, device type, network zone and risk flags, each applied
only when its criterion is active. -/
def useDeviceFilter (devices : List Device) (networks : List Network)
    (filters : DeviceFilters) : List Device :=
  let f1 := if jsTrim filters.searchQuery ≠ "" then
      devices.filter (searchFields (jsToLower filters.searchQuery))
    else devices
  let f2 := if filters.deviceTypes.length > 0 then
      f1.filter (fun device => filters.deviceTypes.contains device.type.str)
    else f1
  let f3 := if filters.networkZones.length > 0 then
      f2.filter (zoneFilterPred networks filters.networkZones)
    else f2
  if filters.showRisksOnly then
    f3.filter (fun device => device.riskFlags.length > 0)
  else f3

/-- Declarative search-match relation used by the claim: the lowercased query
occurs as a substring of one of the lowercased searchable fields. -/
def SearchMatches (q : String) (d : Device) : Prop :=
  Substr (jsToLower q) (jsToLower d.label) ∨
  Substr (jsToLower q) (jsToLower d.ip) ∨
  Substr (jsToLower q) (jsToLower d.localId) ∨
  Substr (jsToLower q) (jsToLower d.type.str) ∨
  (∃ m, d.manufacturer = some m ∧ Substr (jsToLower q) (jsToLower m)) ∨
  (∃ ps p, d.protocols = some ps ∧ p ∈ ps ∧ Substr (jsToLower q) (jsToLower p)) ∨
  (∃ ds, d.description = some ds ∧ Substr (jsToLower q) (jsToLower ds))

theorem searchFields_iff (q : String) (d : Device) :
    searchFields (jsToLower q) d = true ↔ SearchMatches q d := by
  unfold searchFields SearchMatches
  cases hm : d.manufacturer <;> cases hpr : d.protocols <;>
    cases hd : d.description <;>
      simp [hm, hpr, hd, jsIncludes_iff, List.any_eq_true, or_assoc]

theorem zoneFilterPred_iff (networks : List Network) (zones : List String)
    (d : Device) :
    zoneFilterPred networks zones d = true ↔
      ∃ n, networks.find? (fun nw => nw.id == d.networkId) = some n ∧
        n.zone.str ∈ zones := by
  unfold zoneFilterPred
  cases hf : networks.find? (fun nw => nw.id == d.networkId) <;>
    simp [hf, List.elem_iff]

/-- C3: a device is returned by useDeviceFilter exactly when it is an input
device passing every active criterion: the lowercased query occurs in one of
its searchable fields when the search query is non-blank; its type is among
the selected types when any are selected; its networkId resolves to a network
whose zone is selected when any zones are selected (devices whose networkId
matches no network are excluded); and it has at least one risk flag when
showRisksOnly is set. -/
theorem useDeviceFilter_spec (devices : List Device) (networks : List Network)
    (filters : DeviceFilters) (d : Device) :
    d ∈ useDeviceFilter devices networks filters ↔
      d ∈ devices ∧
      (jsTrim filters.searchQuery ≠ "" → SearchMatches filters.searchQuery d) ∧
      (filters.deviceTypes ≠ [] → d.type.str ∈ filters.deviceTypes) ∧
      (filters.networkZones ≠ [] →
        ∃ n, networks.find? (fun nw => nw.id == d.networkId) = some n ∧
          n.zone.str ∈ filters.networkZones) ∧
      (filters.showRisksOnly = true → d.riskFlags ≠ []) := by
  unfold useDeviceFilter
  by_cases hq : jsTrim filters.searchQuery ≠ "" <;>
    by_cases ht : filters.deviceTypes.length > 0 <;>
      by_cases hz : filters.networkZones.length > 0 <;>
        by_cases hr : filters.showRisksOnly = true <;>
          simp_all [List.mem_filter, searchFields_iff, zoneFilterPred_iff,
            List.elem_iff, List.length_pos, and_assoc] <;>
            tauto

/-! ## Device layout placement (NetworkCanvas.tsx, devicePositions) -/

/-- Concentric ring radii per zone (NetworkCanvas.tsx zoneRadii). -/
def zoneRadii (z : Zone) : ℝ :=
  match z with
  | .main => 140
  | .guest => 220
  | .iot => 300

/-- Position entry stored in the devicePositions map. -/
structure DevicePos where
  x : ℝ
  y : ℝ
  zone : Zone

/-- Zone a device is assigned to: the zone of the first network whose id
matches its networkId, falling back to main when none matches. -/
def zoneOfDevice (networks : List Network) (d : Device) : Zone :=
  match networks.find? (fun n => n.id == d.networkId) with
  | some n => n.zone
  | none => .main

/-- The devicesByZone record of devicePositions. -/
structure ZoneBuckets where
  main : List Device
  guest : List Device
  iot : List Device

/-- Push a device onto the bucket of its zone (the forEach body). -/
def pushZone (b : ZoneBuckets) (z : Zone) (d : Device) : ZoneBuckets :=
  match z with
  | .main => { b with main := b.main ++ [d] }
  | .guest => { b with guest := b.guest ++ [d] }
  | .iot => { b with iot := b.iot ++ [d] }

/-- Non-router devices of a scenario in scenario order. -/
def nonRouterDevices (s : Scenario) : List Device :=
  s.devices.filter (fun d => !(d.type == DeviceType.router))

/-- Embedding of the grouping loop of devicePositions. -/
def devicesByZone (s : Scenario) : ZoneBuckets :=
  (nonRouterDevices s).foldl
    (fun b d => pushZone b (zoneOfDevice s.networks d) d) ⟨[], [], []⟩

/-- Ring position of the device at 0-based index i among n devices of zone z:
angle -pi/2 + i * (2*pi / max n 1), centre (400, 350). -/
noncomputable def ringPos (z : Zone) (i n : ℕ) : DevicePos :=
  let radius := zoneRadii z
  let angle : ℝ := -(Real.pi / 2) + i * (2 * Real.pi / (max n 1))
  ⟨400 + radius * Real.cos angle, 350 + radius * Real.sin angle, z⟩

/-- Placement loop over the devices of one zone (the inner forEach). -/
noncomputable def placeGo (z : Zone) (n : ℕ) :
    List (String × DevicePos) → ℕ → List Device → List (String × DevicePos)
  | m, _, [] => m
  | m, i, d :: rest => placeGo z n (jsMapSet m d.id (ringPos z i n)) (i + 1) rest

/-- Embedding of devicePositions from NetworkCanvas.tsx: the first router is
placed at the centre, then the non-router devices of the main, guest and iot
buckets are placed around their rings in order. -/
noncomputable def devicePositions (s : Scenario) : List (String × DevicePos) :=
  let m0 : List (String × DevicePos) :=
    match s.devices.find? (fun d => d.type == DeviceType.router) with
    | some router => jsMapSet [] router.id ⟨400, 350, Zone.main⟩
    | none => []
  let b := devicesByZone s
  let m1 := placeGo Zone.main b.main.length m0 0 b.main
  let m2 := placeGo Zone.guest b.guest.length m1 0 b.guest
  placeGo Zone.iot b.iot.length m2 0 b.iot

/-- Non-router devices of zone z in scenario order (claim-side description of
the zone buckets). -/
def zoneList (s : Scenario) (z : Zone) : List Device :=
  (nonRouterDevices s).filter (fun d => zoneOfDevice s.networks d == z)

theorem devicesByZone_go (networks : List Network) (ds : List Device)
    (b : ZoneBuckets) :
    (ds.foldl (fun b d => pushZone b (zoneOfDevice networks d) d) b).main =
        b.main ++ ds.filter (fun d => zoneOfDevice networks d == Zone.main) ∧
      (ds.foldl (fun b d => pushZone b (zoneOfDevice networks d) d) b).guest =
        b.guest ++ ds.filter (fun d => zoneOfDevice networks d == Zone.guest) ∧
      (ds.foldl (fun b d => pushZone b (zoneOfDevice networks d) d) b).iot =
        b.iot ++ ds.filter (fun d => zoneOfDevice networks d == Zone.iot) := by
  induction ds generalizing b with
  | nil => simp
  | cons d rest ih =>
    cases hz : zoneOfDevice networks d <;>
      simp only [List.foldl_cons] <;>
        refine ⟨?_, ?_, ?_⟩ <;>
          first
            | (rw [(ih _).1]; simp [pushZone, hz, List.filter_cons])
            | (rw [(ih _).2.1]; simp [pushZone, hz, List.filter_cons])
            | (rw [(ih _).2.2]; simp [pushZone, hz, List.filter_cons])

theorem devicesByZone_eq (s : Scenario) :
    (devicesByZone s).main = zoneList s Zone.main ∧
      (devicesByZone s).guest = zoneList s Zone.guest ∧
      (devicesByZone s).iot = zoneList s Zone.iot := by
  unfold devicesByZone zoneList
  have h := devicesByZone_go s.networks (nonRouterDevices s) ⟨[], [], []⟩
  simpa using h

theorem placeGo_get_of_not_mem (z : Zone) (n : ℕ) (ds : List Device)
    (k : String) (hk : ∀ d ∈ ds, d.id ≠ k) :
    ∀ (m : List (String × DevicePos)) (i : ℕ),
      jsMapGet (placeGo z n m i ds) k = jsMapGet m k := by
  induction ds with
  | nil => intro m i; rfl
  | cons d rest ih =>
    intro m i
    show jsMapGet (placeGo z n (jsMapSet m d.id (ringPos z i n)) (i + 1) rest) k
      = jsMapGet m k
    rw [ih (fun d' hd' => hk d' (List.mem_cons_of_mem _ hd')),
      jsMapGet_set_ne _ _ _ _ (Ne.symm (hk d (List.mem_cons_self _ _)))]

theorem placeGo_get_of_getElem (z : Zone) (n : ℕ) (ds : List Device)
    (hnd : (ds.map Device.id).Nodup) :
    ∀ (m : List (String × DevicePos)) (i j : ℕ) (d : Device),
      ds[j]? = some d →
      jsMapGet (placeGo z n m i ds) d.id = some (ringPos z (i + j) n) := by
  induction ds with
  | nil => intro m i j d h; simp at h
  | cons d0 rest ih =>
    intro m i j d h
    simp only [List.map_cons, List.nodup_cons] at hnd
    cases j with
    | zero =>
      rw [List.getElem?_cons_zero, Option.some_inj] at h
      subst h
      show jsMapGet (placeGo z n (jsMapSet m d0.id (ringPos z i n)) (i + 1) rest)
        d0.id = some (ringPos z (i + 0) n)
      have hni : ∀ d' ∈ rest, d'.id ≠ d0.id := by
        intro d' hd' hc
        exact hnd.1 (hc ▸ List.mem_map_of_mem Device.id hd')
      rw [placeGo_get_of_not_mem z n rest d0.id hni, jsMapGet_set_self,
        Nat.add_zero]
    | succ j' =>
      rw [List.getElem?_cons_succ] at h
      show jsMapGet (placeGo z n (jsMapSet m d0.id (ringPos z i n)) (i + 1) rest)
        d.id = _
      rw [ih hnd.2 _ (i + 1) j' d h]
      have hij : i + 1 + j' = i + (j' + 1) := by omega
      rw [hij]

theorem zoneList_facts (s : Scenario) (z : Zone) (d : Device)
    (hd : d ∈ zoneList s z) :
    d ∈ s.devices ∧ d.type ≠ DeviceType.router ∧
      zoneOfDevice s.networks d = z := by
  unfold zoneList nonRouterDevices at hd
  rw [List.mem_filter] at hd
  obtain ⟨hd1, hd2⟩ := hd
  rw [List.mem_filter] at hd1
  refine ⟨hd1.1, ?_, by simpa using hd2⟩
  simpa using hd1.2

theorem zoneList_map_id_nodup (s : Scenario)
    (hids : (s.devices.map Device.id).Nodup) (z : Zone) :
    ((zoneList s z).map Device.id).Nodup := by
  apply List.Nodup.sublist _ hids
  apply List.Sublist.map
  exact (List.filter_sublist _).trans (List.filter_sublist _)

/-- C5: under pairwise-distinct device ids, the layout map places the first
device of type router at the canvas centre (400, 350), and places every
non-router device of zone z (radius 140 for main, 220 for guest, 300 for iot;
a device whose networkId matches no network counts as main) at angle
-pi/2 + i * (2*pi/n), where n is the number of non-router devices of that
zone and i is the device's 0-based index within the zone in scenario order. -/
theorem devicePositions_spec (s : Scenario)
    (hids : (s.devices.map Device.id).Nodup) :
    (∀ r, s.devices.find? (fun d => d.type == DeviceType.router) = some r →
      jsMapGet (devicePositions s) r.id = some ⟨400, 350, Zone.main⟩) ∧
    (∀ z : Zone, ∀ i : ℕ, ∀ d : Device, (zoneList s z)[i]? = some d →
      jsMapGet (devicePositions s) d.id = some
        ⟨400 + zoneRadii z * Real.cos (-(Real.pi / 2) +
            i * (2 * Real.pi / (zoneList s z).length)),
          350 + zoneRadii z * Real.sin (-(Real.pi / 2) +
            i * (2 * Real.pi / (zoneList s z).length)),
          z⟩) := by
  obtain ⟨hbm, hbg, hbi⟩ := devicesByZone_eq s
  have hinj : ∀ {x y : Device}, x ∈ s.devices → y ∈ s.devices →
      x.id = y.id → x = y := fun hx hy hf =>
    List.inj_on_of_nodup_map hids hx hy hf
  constructor
  · intro r hr
    have hrmem : r ∈ s.devices := List.mem_of_find?_eq_some hr
    have hrtype : r.type = DeviceType.router := by
      simpa using List.find?_some hr
    have hnot : ∀ z : Zone, ∀ d ∈ zoneList s z, d.id ≠ r.id := by
      intro z d hd hc
      obtain ⟨hd1, hd2, _⟩ := zoneList_facts s z d hd
      exact hd2 ((hinj hd1 hrmem hc) ▸ hrtype)
    show jsMapGet (devicePositions s) r.id = some ⟨400, 350, Zone.main⟩
    unfold devicePositions
    simp only [hr, hbm, hbg, hbi]
    rw [placeGo_get_of_not_mem _ _ _ _ (hnot Zone.iot),
      placeGo_get_of_not_mem _ _ _ _ (hnot Zone.guest),
      placeGo_get_of_not_mem _ _ _ _ (hnot Zone.main),
      jsMapGet_set_self]
  · intro z i d hd
    have hmem : d ∈ zoneList s z := List.getElem?_mem hd
    have hlt : i < (zoneList s z).length := (List.getElem?_eq_some.mp hd).1
    have hmax : max (zoneList s z).length 1 = (zoneList s z).length :=
      Nat.max_eq_left (by omega)
    have hdisj : ∀ z' : Zone, z' ≠ z → ∀ d' ∈ zoneList s z', d'.id ≠ d.id := by
      intro z' hzz d' hd' hc
      obtain ⟨h1, _, h3⟩ := zoneList_facts s z' d' hd'
      obtain ⟨h1', _, h3'⟩ := zoneList_facts s z d hmem
      exact hzz ((hinj h1 h1' hc ▸ h3).symm.trans ((hinj h1 h1' hc) ▸ h3'))
    have hplace :
        jsMapGet (devicePositions s) d.id =
          some (ringPos z (0 + i) (zoneList s z).length) := by
      unfold devicePositions
      simp only [hbm, hbg, hbi]
      cases z with
      | main =>
        rw [placeGo_get_of_not_mem _ _ _ _ (hdisj Zone.iot (by simp)),
          placeGo_get_of_not_mem _ _ _ _ (hdisj Zone.guest (by simp)),
          placeGo_get_of_getElem _ _ _
            (zoneList_map_id_nodup s hids Zone.main) _ 0 i d hd]
      | guest =>
        rw [placeGo_get_of_not_mem _ _ _ _ (hdisj Zone.iot (by simp)),
          placeGo_get_of_getElem _ _ _
            (zoneList_map_id_nodup s hids Zone.guest) _ 0 i d hd]
      | iot =>
        rw [placeGo_get_of_getElem _ _ _
          (zoneList_map_id_nodup s hids Zone.iot) _ 0 i d hd]
    rw [hplace, Nat.zero_add]
    unfold ringPos
    rw [hmax]

/-- Concrete router device for evaluation. -/
def exRouter : Device :=
  { id := "router-1", type := .router, label := "Home Router"
    networkId := "net-main", ip := "192.168.1.1"
    localId := "AA:AA:AA:AA:AA:01", riskFlags := [] }

/-- Concrete laptop device for evaluation. -/
def exLaptop : Device :=
  { id := "laptop-1", type := .laptop, label := "Work Laptop"
    networkId := "net-main", ip := "192.168.1.20"
    localId := "AA:AA:AA:AA:AA:02", riskFlags := [] }

/-- Concrete phone device for evaluation. -/
def exPhone : Device :=
  { id := "phone-1", type := .phone, label := "Guest Phone"
    networkId := "net-guest", ip := "192.168.2.21"
    localId := "AA:AA:AA:AA:AA:03", riskFlags := [] }

/-- Concrete scenario used to evaluate the layout and store theorems. -/
def exampleScenario : Scenario :=
  { id := "family-iot"
    title := "Family Home Network"
    description := "A small home network"
    environment := { type := .home, isp := "ExampleNet", publicIp := "203.0.113.7" }
    networks :=
      [{ id := "net-main", ssid := "HomeWiFi", security := .WPA2
         subnet := "192.168.1.0/24", zone := .main },
       { id := "net-guest", ssid := "HomeWiFi-Guest", security := .WPA2
         subnet := "192.168.2.0/24", zone := .guest }]
    devices := [exRouter, exLaptop, exPhone]
    events := []
    learningPrompts := [] }

/-- C5 witness: the layout theorem evaluated on a concrete scenario, placing
the router at the centre and the first main-zone device on the main ring. -/
theorem devicePositions_spec_witness :
    jsMapGet (devicePositions exampleScenario) exRouter.id =
      some ⟨400, 350, Zone.main⟩ ∧
    jsMapGet (devicePositions exampleScenario) exLaptop.id = some
      ⟨400 + zoneRadii Zone.main * Real.cos (-(Real.pi / 2) +
          (0 : ℕ) * (2 * Real.pi / (zoneList exampleScenario Zone.main).length)),
        350 + zoneRadii Zone.main * Real.sin (-(Real.pi / 2) +
          (0 : ℕ) * (2 * Real.pi / (zoneList exampleScenario Zone.main).length)),
        Zone.main⟩ :=
  ⟨(devicePositions_spec exampleScenario (by decide)).1 exRouter (by decide),
   (devicePositions_spec exampleScenario (by decide)).2 Zone.main 0 exLaptop
     (by decide)⟩

/-- Router that shares its id with another device. -/
def dupIdRouter : Device :=
  { id := "dup-dev", type := .router, label := "Router"
    networkId := "net-x", ip := "192.168.1.1"
    localId := "AA:AA:AA:AA:AA:10", riskFlags := [] }

/-- Laptop that shares its id with the router. -/
def dupIdLaptop : Device :=
  { id := "dup-dev", type := .laptop, label := "Laptop"
    networkId := "net-x", ip := "192.168.1.30"
    localId := "AA:AA:AA:AA:AA:11", riskFlags := [] }

/-- Scenario with two devices sharing one id. -/
def dupIdScenario : Scenario :=
  { id := "dup-scenario"
    title := "Duplicate ids"
    description := "Two devices share an id"
    environment := { type := .home, isp := "ISP", publicIp := "203.0.113.9" }
    networks := []
    devices := [dupIdRouter, dupIdLaptop]
    events := []
    learningPrompts := [] }

/-- C5 counterexample: when a non-router device shares the router's id, the
ring placement overwrites the router's map entry, so the first router is not
at the canvas centre (400, 350): its id resolves to the main-ring position at
angle -pi/2, whose y coordinate is 210. -/
theorem devicePositions_counterexample :
    dupIdScenario.devices.find? (fun d => d.type == DeviceType.router) =
      some dupIdRouter ∧
    jsMapGet (devicePositions dupIdScenario) dupIdRouter.id ≠
      some ⟨400, 350, Zone.main⟩ := by
  constructor
  · decide
  · have h1 : jsMapGet (devicePositions dupIdScenario) dupIdRouter.id =
        some (ringPos Zone.main 0 1) := rfl
    rw [h1]
    intro hc
    have hy : (ringPos Zone.main 0 1).y = (350 : ℝ) :=
      congrArg DevicePos.y (Option.some_inj.mp hc)
    have hy' : (ringPos Zone.main 0 1).y = (210 : ℝ) := by
      unfold ringPos
      norm_num [zoneRadii, Real.sin_neg, Real.sin_pi_div_two]
    rw [hy'] at hy
    norm_num at hy

/-! ## Quiz-progress state machine (LearningPrompts.tsx) -/

/-- React state of the LearningPrompts component. -/
structure QuizState where
  currentIndex : ℕ
  selectedAnswer : Option ℕ
  showExplanation : Bool
  completedPrompts : Finset String
  correctAnswers : ℕ
  showSummary : Bool
  promptResults : List (String × Bool)
  deriving DecidableEq

/-- Initial state (also what the prompts-change effect and handleReset set). -/
def initQuizState : QuizState :=
  ⟨0, none, false, ∅, 0, false, []⟩

/-- safeIndex of LearningPrompts.tsx. -/
def safeIndex (prompts : List LearningPrompt) (st : QuizState) : ℕ :=
  if st.currentIndex < prompts.length then st.currentIndex else 0

/-- Embedding of handleAnswerSelect: a no-op when an answer is already
selected, otherwise records the selection, bumps the correct counter when the
chosen answer is correct, stores the result and marks the prompt completed. -/
def handleAnswerSelect (prompts : List LearningPrompt) (st : QuizState)
    (answerIndex : ℕ) : QuizState :=
  if st.selectedAnswer ≠ none then st
  else
    match prompts[safeIndex prompts st]? with
    | none => st
    | some currentPrompt =>
      let isCorrect :=
        ((currentPrompt.answers[answerIndex]?).map
          (fun a => a.isCorrect)).getD false
      { st with
        selectedAnswer := some answerIndex
        showExplanation := true
        correctAnswers := st.correctAnswers + (if isCorrect then 1 else 0)
        promptResults := jsMapSet st.promptResults currentPrompt.id isCorrect
        completedPrompts := insert currentPrompt.id st.completedPrompts }

/-- Embedding of handleNext. -/
def handleNext (prompts : List LearningPrompt) (st : QuizState) : QuizState :=
  if st.currentIndex < prompts.length - 1 then
    { st with
      currentIndex := st.currentIndex + 1
      selectedAnswer := none
      showExplanation := false }
  else st

/-- Embedding of handleFinish: enters the summary screen only when every
prompt has been completed (isComplete). -/
def handleFinish (prompts : List LearningPrompt) (st : QuizState) : QuizState :=
  if st.completedPrompts.card = prompts.length then
    { st with showSummary := true }
  else st

/-- One user interaction on the LearningPrompts component. -/
inductive QuizStep (prompts : List LearningPrompt) : QuizState → QuizState → Prop
  | select (st : QuizState) (answerIndex : ℕ) :
      QuizStep prompts st (handleAnswerSelect prompts st answerIndex)
  | next (st : QuizState) : QuizStep prompts st (handleNext prompts st)
  | finish (st : QuizState) : QuizStep prompts st (handleFinish prompts st)
  | reset (st : QuizState) : QuizStep prompts st initQuizState

/-- States reachable from the initial state by user interactions. -/
inductive QuizReachable (prompts : List LearningPrompt) : QuizState → Prop
  | init : QuizReachable prompts initQuizState
  | step {st st' : QuizState} : QuizReachable prompts st →
      QuizStep prompts st st' → QuizReachable prompts st'

/-- Ids of the prompts in order. -/
def promptIds (prompts : List LearningPrompt) : List String :=
  prompts.map (fun p => p.id)

/-- Number of prompts already answered or being answered: the current index,
plus one when an answer is selected for the current prompt. -/
def quizBoundary (st : QuizState) : ℕ :=
  st.currentIndex + (if st.selectedAnswer.isSome then 1 else 0)

/-- Inductive invariant of the quiz state machine. -/
def QuizInv (prompts : List LearningPrompt) (st : QuizState) : Prop :=
  st.correctAnswers ≤ st.completedPrompts.card ∧
  (∀ x ∈ st.completedPrompts, x ∈ (promptIds prompts).take (quizBoundary st)) ∧
  (prompts ≠ [] → st.currentIndex < prompts.length) ∧
  (st.showSummary = true → ∀ p ∈ prompts, p.id ∈ st.completedPrompts)

theorem not_mem_take_self_of_nodup (l : List String) (hn : l.Nodup) (i : ℕ)
    (hi : i < l.length) : l[i] ∉ l.take i := by
  intro hmem
  have hsplit : l.take i ++ l.drop i = l := List.take_append_drop i l
  rw [← hsplit] at hn
  have hdisj := List.disjoint_of_nodup_append hn
  have hdrop : l[i] ∈ l.drop i := by
    rw [List.drop_eq_getElem_cons hi]
    exact List.mem_cons_self _ _
  exact hdisj hmem hdrop

theorem quizInv_init (prompts : List LearningPrompt) :
    QuizInv prompts initQuizState := by
  refine ⟨le_refl 0, ?_, ?_, ?_⟩
  · intro x hx
    simp [initQuizState] at hx
  · intro hne
    simpa [initQuizState, List.length_pos] using hne
  · intro hc
    simp [initQuizState] at hc

theorem mem_take_mono (l : List String) (m n : ℕ) (hmn : m ≤ n) (a : String)
    (ha : a ∈ l.take m) : a ∈ l.take n := by
  have : l.take m = (l.take n).take m := by
    rw [List.take_take, Nat.min_eq_left hmn]
  rw [this] at ha
  exact List.mem_of_mem_take ha

theorem quizInv_select (prompts : List LearningPrompt)
    (hnodup : (promptIds prompts).Nodup) (st : QuizState) (answerIndex : ℕ)
    (h : QuizInv prompts st) :
    QuizInv prompts (handleAnswerSelect prompts st answerIndex) := by
  obtain ⟨h1, h2, h3, h4⟩ := h
  unfold handleAnswerSelect
  split
  · exact ⟨h1, h2, h3, h4⟩
  · rename_i hsel
    rw [not_ne_iff] at hsel
    split
    · exact ⟨h1, h2, h3, h4⟩
    · rename_i cp hcp
      have hne : prompts ≠ [] := by
        intro hc
        rw [hc] at hcp
        simp at hcp
      have hci := h3 hne
      have hsi : safeIndex prompts st = st.currentIndex := by
        unfold safeIndex
        rw [if_pos hci]
      rw [hsi] at hcp
      have hb : quizBoundary st = st.currentIndex := by
        simp [quizBoundary, hsel]
      have hlenids : (promptIds prompts).length = prompts.length := by
        simp [promptIds]
      have hidci : (promptIds prompts)[st.currentIndex]? = some cp.id := by
        unfold promptIds
        rw [List.getElem?_map, hcp]
        rfl
      have hci' : st.currentIndex < (promptIds prompts).length := by
        rw [hlenids]; exact hci
      have hidval : (promptIds prompts)[st.currentIndex] = cp.id := by
        have := List.getElem?_eq_some.mp hidci
        obtain ⟨_, hv⟩ := this
        exact hv
      have hfresh : cp.id ∉ st.completedPrompts := by
        intro hmem
        have hx := h2 cp.id hmem
        rw [hb] at hx
        rw [← hidval] at hx
        exact not_mem_take_self_of_nodup (promptIds prompts) hnodup
          st.currentIndex hci' hx
      refine ⟨?_, ?_, fun _ => hci, ?_⟩
      · rw [Finset.card_insert_of_not_mem hfresh]
        have hite : (if ((cp.answers[answerIndex]?).map
            (fun a => a.isCorrect)).getD false = true then 1 else 0) ≤ 1 := by
          split <;> omega
        simp only []
        omega
      · intro x hx
        have hb' : quizBoundary
            { st with
              selectedAnswer := some answerIndex
              showExplanation := true
              correctAnswers := st.correctAnswers +
                (if ((cp.answers[answerIndex]?).map
                  (fun a => a.isCorrect)).getD false = true then 1 else 0)
              promptResults := jsMapSet st.promptResults cp.id
                (((cp.answers[answerIndex]?).map
                  (fun a => a.isCorrect)).getD false)
              completedPrompts := insert cp.id st.completedPrompts } =
            st.currentIndex + 1 := by
          simp [quizBoundary]
        rw [hb']
        rw [List.take_succ, hidci]
        rcases Finset.mem_insert.mp hx with rfl | hx'
        · simp
        · exact List.mem_append_left _ (hb ▸ h2 x hx')
      · intro hs p hp
        exact Finset.mem_insert_of_mem (h4 hs p hp)

theorem quizInv_next (prompts : List LearningPrompt) (st : QuizState)
    (h : QuizInv prompts st) : QuizInv prompts (handleNext prompts st) := by
  obtain ⟨h1, h2, h3, h4⟩ := h
  unfold handleNext
  split
  · rename_i hlt
    refine ⟨h1, ?_, fun _ => by
      show st.currentIndex + 1 < prompts.length
      omega, h4⟩
    intro x hx
    have hble : quizBoundary st ≤ st.currentIndex + 1 := by
      unfold quizBoundary
      split <;> omega
    have hb' : quizBoundary
        { st with
          currentIndex := st.currentIndex + 1
          selectedAnswer := none
          showExplanation := false } = st.currentIndex + 1 := by
      simp [quizBoundary]
    rw [hb']
    exact mem_take_mono _ _ _ hble x (h2 x hx)
  · exact ⟨h1, h2, h3, h4⟩

theorem quizInv_finish (prompts : List LearningPrompt)
    (hnodup : (promptIds prompts).Nodup) (st : QuizState)
    (h : QuizInv prompts st) : QuizInv prompts (handleFinish prompts st) := by
  obtain ⟨h1, h2, h3, h4⟩ := h
  unfold handleFinish
  split
  · rename_i hcard
    refine ⟨h1, h2, h3, ?_⟩
    intro _ p hp
    have hsub : st.completedPrompts ⊆ (promptIds prompts).toFinset := by
      intro x hx
      exact List.mem_toFinset.mpr (List.mem_of_mem_take (h2 x hx))
    have hcard2 : (promptIds prompts).toFinset.card = prompts.length := by
      rw [List.toFinset_card_of_nodup hnodup]
      simp [promptIds]
    have heq : st.completedPrompts = (promptIds prompts).toFinset :=
      Finset.eq_of_subset_of_card_le hsub (by rw [hcard2, hcard])
    rw [heq]
    exact List.mem_toFinset.mpr (List.mem_map_of_mem _ hp)
  · exact ⟨h1, h2, h3, h4⟩

/-- C7: in every reachable state of the quiz machine over prompts with
pairwise-distinct ids, the correct-answer count is at most the number of
completed prompts, completed prompts number at most the total prompts,
selecting an answer while one is already selected leaves the state unchanged,
and the summary screen is on only when every prompt has been completed. -/
theorem quiz_invariants (prompts : List LearningPrompt)
    (hnodup : (prompts.map (fun p => p.id)).Nodup)
    (st : QuizState) (hr : QuizReachable prompts st) :
    st.correctAnswers ≤ st.completedPrompts.card ∧
    st.completedPrompts.card ≤ prompts.length ∧
    (∀ answerIndex : ℕ, st.selectedAnswer ≠ none →
      handleAnswerSelect prompts st answerIndex = st) ∧
    (st.showSummary = true → ∀ p ∈ prompts, p.id ∈ st.completedPrompts) := by
  have hn : (promptIds prompts).Nodup := hnodup
  have hinv : QuizInv prompts st := by
    induction hr with
    | init => exact quizInv_init prompts
    | step hr' hstep ih =>
      cases hstep with
      | select ai => exact quizInv_select prompts hn _ ai ih
      | next => exact quizInv_next prompts _ ih
      | finish => exact quizInv_finish prompts hn _ ih
      | reset => exact quizInv_init prompts
  obtain ⟨h1, h2, h3, h4⟩ := hinv
  refine ⟨h1, ?_, ?_, h4⟩
  · have hsub : st.completedPrompts ⊆ (promptIds prompts).toFinset := by
      intro x hx
      exact List.mem_toFinset.mpr (List.mem_of_mem_take (h2 x hx))
    calc st.completedPrompts.card
        ≤ (promptIds prompts).toFinset.card := Finset.card_le_card hsub
      _ ≤ (promptIds prompts).length := List.toFinset_card_le _
      _ = prompts.length := by simp [promptIds]
  · intro ai hsel
    unfold handleAnswerSelect
    rw [if_pos hsel]

/-- Concrete prompts used to evaluate the quiz theorems. -/
def examplePrompts : List LearningPrompt :=
  [{ id := "prompt-1"
     question := "What does an IP address identify?"
     answers := [⟨"A device on the network", true⟩, ⟨"The WiFi name", false⟩]
     explanation := "An IP address identifies a device on the network." },
   { id := "prompt-2"
     question := "Which protocol is encrypted?"
     answers := [⟨"HTTP", false⟩, ⟨"HTTPS", true⟩]
     explanation := "HTTPS runs HTTP over TLS." }]

/-- C7 witness: the invariants evaluated on the state reached by answering
the first concrete prompt. -/
theorem quiz_invariants_witness :
    (examplePrompts.map (fun p => p.id)).Nodup ∧
    ((handleAnswerSelect examplePrompts initQuizState 0).correctAnswers ≤
      (handleAnswerSelect examplePrompts initQuizState 0).completedPrompts.card ∧
    (handleAnswerSelect examplePrompts initQuizState 0).completedPrompts.card ≤
      examplePrompts.length ∧
    (∀ answerIndex : ℕ,
      (handleAnswerSelect examplePrompts initQuizState 0).selectedAnswer ≠ none →
      handleAnswerSelect examplePrompts
        (handleAnswerSelect examplePrompts initQuizState 0) answerIndex =
        handleAnswerSelect examplePrompts initQuizState 0) ∧
    ((handleAnswerSelect examplePrompts initQuizState 0).showSummary = true →
      ∀ p ∈ examplePrompts,
        p.id ∈ (handleAnswerSelect examplePrompts initQuizState 0).completedPrompts)) :=
  ⟨by decide, quiz_invariants examplePrompts (by decide) _
    (QuizReachable.step QuizReachable.init (QuizStep.select initQuizState 0))⟩

/-- Prompt with a correct answer, listed twice under one id. -/
def dupPrompt : LearningPrompt :=
  { id := "dup-prompt"
    question := "Is this a network?"
    answers := [⟨"yes", true⟩]
    explanation := "It is." }

/-- Prompt list containing the same prompt id twice. -/
def dupPrompts : List LearningPrompt := [dupPrompt, dupPrompt]

/-- State reached by answering both copies of the duplicated prompt. -/
def dupQuizState : QuizState :=
  handleAnswerSelect dupPrompts
    (handleNext dupPrompts (handleAnswerSelect dupPrompts initQuizState 0)) 0

/-- C7 counterexample: when two prompts share an id, answering both correctly
reaches a state whose correct-answer count (2) exceeds the number of
completed prompts (1), because completedPrompts is a set of prompt ids. -/
theorem quiz_invariants_counterexample :
    QuizReachable dupPrompts dupQuizState ∧
    ¬(dupQuizState.correctAnswers ≤ dupQuizState.completedPrompts.card) :=
  ⟨QuizReachable.step
    (QuizReachable.step
      (QuizReachable.step QuizReachable.init (QuizStep.select initQuizState 0))
      (QuizStep.next _))
    (QuizStep.select _ 0),
   by decide⟩

/-! ## Event-notification state machine (EventNotifications.tsx) -/

/-- React state of the EventNotifications component. -/
structure NotifState where
  activeEvent : Option NetworkEvent
  dismissedEvents : Finset String
  shownOnEnterEvents : Finset String
  deriving DecidableEq

/-- Initial state (also what the scenario-change effect sets). -/
def initNotifState : NotifState := ⟨none, ∅, ∅⟩

/-- The onEnter effect's selection: the first onEnter event not yet shown
and not dismissed. -/
def firstOnEnterEvent (events : List NetworkEvent) (st : NotifState) :
    Option NetworkEvent :=
  (events.filter (fun e =>
    e.trigger == EventTrigger.onEnter &&
    decide (e.id ∉ st.shownOnEnterEvents) &&
    decide (e.id ∉ st.dismissedEvents))).head?

/-- The onDeviceClick effect's selection: the first onDeviceClick event for
the selected device that is not dismissed. -/
def clickEventFor (events : List NetworkEvent) (st : NotifState)
    (did : String) : Option NetworkEvent :=
  events.find? (fun e =>
    e.trigger == EventTrigger.onDeviceClick &&
    e.deviceId == some did &&
    decide (e.id ∉ st.dismissedEvents))

/-- Embedding of handleDismiss: add the active event's id to the dismissed
set and clear the active event. -/
def handleDismiss (st : NotifState) : NotifState :=
  match st.activeEvent with
  | some e =>
    { st with activeEvent := none
              dismissedEvents := insert e.id st.dismissedEvents }
  | none => { st with activeEvent := none }

/-- One transition of the EventNotifications effects and handlers. -/
inductive NotifStep (events : List NetworkEvent) :
    NotifState → NotifState → Prop
  | scenarioChange (st : NotifState) : NotifStep events st initNotifState
  | enterFire (st : NotifState) (e : NetworkEvent)
      (he : firstOnEnterEvent events st = some e) :
      NotifStep events st
        { st with activeEvent := some e
                  shownOnEnterEvents := insert e.id st.shownOnEnterEvents }
  | clickFire (st : NotifState) (did : String) (e : NetworkEvent)
      (he : clickEventFor events st did = some e) :
      NotifStep events st { st with activeEvent := some e }
  | dismiss (st : NotifState) : NotifStep events st (handleDismiss st)

/-- States reachable from the initial state. -/
inductive NotifReachable (events : List NetworkEvent) : NotifState → Prop
  | init : NotifReachable events initNotifState
  | step {st st' : NotifState} : NotifReachable events st →
      NotifStep events st st' → NotifReachable events st'

theorem firstOnEnterEvent_props (events : List NetworkEvent) (st : NotifState)
    (e : NetworkEvent) (h : firstOnEnterEvent events st = some e) :
    e.trigger = EventTrigger.onEnter ∧ e.id ∉ st.shownOnEnterEvents ∧
      e.id ∉ st.dismissedEvents := by
  unfold firstOnEnterEvent at h
  have hmem := List.mem_of_mem_head? h
  have hp := List.of_mem_filter hmem
  simpa [and_assoc] using hp

theorem clickEventFor_props (events : List NetworkEvent) (st : NotifState)
    (did : String) (e : NetworkEvent) (h : clickEventFor events st did = some e) :
    e.trigger = EventTrigger.onDeviceClick ∧ e.deviceId = some did ∧
      e.id ∉ st.dismissedEvents := by
  have hp := List.find?_some h
  simpa [and_assoc] using hp

/-- C10: in every reachable state of the event-notification machine the
active (displayed) event is never one whose id is in the dismissed set, and
every step taken from a reachable state either keeps each dismissed id out of
the active slot or is the scenario change, which resets the dismissed set to
empty. -/
theorem event_dismissal (events : List NetworkEvent) (st : NotifState)
    (hr : NotifReachable events st) :
    (∀ e : NetworkEvent, st.activeEvent = some e →
      e.id ∉ st.dismissedEvents) ∧
    (∀ st'' : NotifState, NotifStep events st st'' →
      ∀ x ∈ st.dismissedEvents,
        (∀ e : NetworkEvent, st''.activeEvent = some e → e.id ≠ x) ∨
        st''.dismissedEvents = ∅) := by
  have hstep_safe : ∀ s s'' : NotifState, NotifStep events s s'' →
      ∀ x ∈ s.dismissedEvents,
        (∀ e : NetworkEvent, s''.activeEvent = some e → e.id ≠ x) ∨
        s''.dismissedEvents = ∅ := by
    intro s s'' hstep x hx
    cases hstep with
    | scenarioChange => exact Or.inr rfl
    | enterFire e' he' =>
      left
      intro e he
      obtain rfl : e' = e := Option.some_inj.mp he
      intro hc
      exact (firstOnEnterEvent_props events s e' he').2.2 (hc ▸ hx)
    | clickFire did e' he' =>
      left
      intro e he
      obtain rfl : e' = e := Option.some_inj.mp he
      intro hc
      exact (clickEventFor_props events s did e' he').2.2 (hc ▸ hx)
    | dismiss =>
      left
      intro e he
      unfold handleDismiss at he
      split at he <;> simp at he
  refine ⟨?_, hstep_safe st⟩
  induction hr with
  | init =>
    intro e he
    simp [initNotifState] at he
  | step hr' hstep ih =>
    cases hstep with
    | scenarioChange =>
      intro e he
      simp [initNotifState] at he
    | enterFire e' he' =>
      intro e he
      obtain rfl : e' = e := Option.some_inj.mp he
      exact (firstOnEnterEvent_props events _ e' he').2.2
    | clickFire did e' he' =>
      intro e he
      obtain rfl : e' = e := Option.some_inj.mp he
      exact (clickEventFor_props events _ did e' he').2.2
    | dismiss =>
      intro e he
      unfold handleDismiss at he
      split at he <;> simp at he

/-- Concrete events used to evaluate the notification theorem. -/
def exampleEvents : List NetworkEvent :=
  [{ id := "unknown_device_alert", trigger := .onEnter
     message := "An unknown device has joined the network." },
   { id := "unknown_device_reveal", trigger := .onDeviceClick
     deviceId := some "cam-1"
     message := "This device is not recognised." }]

/-- C10 witness: the dismissal theorem evaluated at the initial state over
the concrete event list. -/
theorem event_dismissal_witness :
    (∀ e : NetworkEvent, initNotifState.activeEvent = some e →
      e.id ∉ initNotifState.dismissedEvents) ∧
    (∀ st'' : NotifState, NotifStep exampleEvents initNotifState st'' →
      ∀ x ∈ initNotifState.dismissedEvents,
        (∀ e : NetworkEvent, st''.activeEvent = some e → e.id ≠ x) ∨
        st''.dismissedEvents = ∅) :=
  event_dismissal exampleEvents initNotifState NotifReachable.init

/-! ## In-memory scenario store and routes (server/storage.ts, server/routes.ts) -/

/-- Modelled from the spec: the shared scenario data module (the
familyIoTScenario constant of shared/scenarios.ts) is not under src. The spec
describes it as one of three static fictional scenarios (home IoT); this
concrete stand-in carries a representative home topology, and only its
existence, its id, and the distinctness of the three ids matter to the
claims. -/
def familyIoTScenario : Scenario := exampleScenario

/-- Modelled from the spec: the smallBusinessScenario constant of
shared/scenarios.ts (small business), not under src. -/
def smallBusinessScenario : Scenario :=
  { id := "small-business"
    title := "Small Business Office"
    description := "An office network"
    environment := { type := .business, isp := "BizNet", publicIp := "198.51.100.10" }
    networks :=
      [{ id := "biz-main", ssid := "OfficeWiFi", security := .WPA3
         subnet := "10.0.0.0/24", zone := .main }]
    devices := []
    events := []
    learningPrompts := [] }

/-- Modelled from the spec: the hotelPublicScenario constant of
shared/scenarios.ts (public WiFi), not under src. -/
def hotelPublicScenario : Scenario :=
  { id := "hotel-public"
    title := "Hotel Public WiFi"
    description := "A public hotspot"
    environment := { type := .public, isp := "HotelNet", publicIp := "192.0.2.50" }
    networks :=
      [{ id := "hotel-open", ssid := "Hotel-Guest", security := .Open
         subnet := "172.16.0.0/24", zone := .guest }]
    devices := []
    events := []
    learningPrompts := [] }

/-- The MemStorage class: a JS Map from scenario id to scenario. -/
structure MemStorage where
  scenarios : List (String × Scenario)
  deriving DecidableEq

/-- The MemStorage constructor: installs the three static scenarios. -/
def mkMemStorage : MemStorage :=
  ⟨jsMapSet
    (jsMapSet
      (jsMapSet [] familyIoTScenario.id familyIoTScenario)
      smallBusinessScenario.id smallBusinessScenario)
    hotelPublicScenario.id hotelPublicScenario⟩

/-- MemStorage.getAllScenarios. -/
def MemStorage.getAllScenarios (s : MemStorage) : List Scenario :=
  s.scenarios.map (fun kv => kv.2)

/-- MemStorage.getScenarioById. -/
def MemStorage.getScenarioById (s : MemStorage) (id : String) : Option Scenario :=
  jsMapGet s.scenarios id

/-- The zod scenarioIdSchema of routes.ts: a string of 1 to 100 characters
drawn from ASCII letters, digits, underscore and hyphen. -/
def validScenarioId (id : String) : Bool :=
  decide (1 ≤ id.length) && decide (id.length ≤ 100) &&
  id.data.all (fun c => c.isAlphanum || c == '_' || c == '-')

/-- Summary object built by GET /api/scenarios. -/
structure ScenarioSummary where
  id : String
  title : String
  description : String
  environment : Environment
  deviceCount : ℕ
  networkCount : ℕ
  deriving DecidableEq

/-- The summary mapping of the scenarios route. -/
def summaryOf (s : Scenario) : ScenarioSummary :=
  ⟨s.id, s.title, s.description, s.environment, s.devices.length,
    s.networks.length⟩

/-- Body of an HTTP response of the two routes. -/
inductive ResponseBody
  | scenario (s : Scenario)
  | summaries (l : List ScenarioSummary)
  | err (message : String)
  deriving DecidableEq

/-- HTTP response of the two routes. -/
structure ApiResponse where
  status : ℕ
  body : ResponseBody
  deriving DecidableEq

/-- Embedding of the GET /api/scenarios handler. -/
def handleGetScenarios (store : MemStorage) : ApiResponse × MemStorage :=
  (⟨200, .summaries (store.getAllScenarios.map summaryOf)⟩, store)

/-- Embedding of the GET /api/scenarios/:id handler of routes.ts: reject ids
failing the zod format check with 400, answer 404 when the store has no such
scenario, and the scenario as JSON otherwise. -/
def handleGetScenarioById (store : MemStorage) (id : String) :
    ApiResponse × MemStorage :=
  if validScenarioId id = false then
    (⟨400, .err "Invalid scenario ID format"⟩, store)
  else
    match store.getScenarioById id with
    | none => (⟨404, .err "Scenario not found"⟩, store)
    | some s => (⟨200, .scenario s⟩, store)

/-- C1 counterexample: for the id "!" the store contains no scenario, yet the
response is 400 Invalid scenario ID format, not the claimed 404 Scenario not
found: the route validates the id format before consulting the store. -/
theorem scenario_route_404_counterexample :
    mkMemStorage.getScenarioById "!" = none ∧
    (handleGetScenarioById mkMemStorage "!").1.status = 400 ∧
    (handleGetScenarioById mkMemStorage "!").1 ≠
      ⟨404, .err "Scenario not found"⟩ := by
  refine ⟨?_, ?_, ?_⟩ <;> decide

/-- C1 amended: when the id passes the format check (1 to 100 characters of
letters, digits, underscore, hyphen), the response is the stored scenario as
JSON when present and 404 Scenario not found otherwise; when the id fails the
format check the response is 400 Invalid scenario ID format. -/
theorem scenario_route_amended (store : MemStorage) (id : String) :
    (validScenarioId id = true →
      ((∃ s, store.getScenarioById id = some s ∧
        (handleGetScenarioById store id).1 = ⟨200, .scenario s⟩) ∨
       (store.getScenarioById id = none ∧
        (handleGetScenarioById store id).1 =
          ⟨404, .err "Scenario not found"⟩))) ∧
    (validScenarioId id = false →
      (handleGetScenarioById store id).1 =
        ⟨400, .err "Invalid scenario ID format"⟩) := by
  constructor
  · intro hv
    unfold handleGetScenarioById
    rw [if_neg (by simp [hv])]
    cases hs : store.getScenarioById id with
    | none => exact Or.inr ⟨rfl, rfl⟩
    | some s => exact Or.inl ⟨s, rfl, rfl⟩
  · intro hv
    unfold handleGetScenarioById
    rw [if_pos hv]

/-- C1 witness: the amended route theorem evaluated at a present id and at an
absent well-formed id over the constructed store. -/
theorem scenario_route_amended_witness :
    validScenarioId "family-iot" = true ∧
    ((∃ s, mkMemStorage.getScenarioById "family-iot" = some s ∧
      (handleGetScenarioById mkMemStorage "family-iot").1 =
        ⟨200, .scenario s⟩) ∨
     (mkMemStorage.getScenarioById "family-iot" = none ∧
      (handleGetScenarioById mkMemStorage "family-iot").1 =
        ⟨404, .err "Scenario not found"⟩)) ∧
    validScenarioId "no-such-scenario" = true ∧
    ((∃ s, mkMemStorage.getScenarioById "no-such-scenario" = some s ∧
      (handleGetScenarioById mkMemStorage "no-such-scenario").1 =
        ⟨200, .scenario s⟩) ∨
     (mkMemStorage.getScenarioById "no-such-scenario" = none ∧
      (handleGetScenarioById mkMemStorage "no-such-scenario").1 =
        ⟨404, .err "Scenario not found"⟩)) :=
  ⟨by decide,
   (scenario_route_amended mkMemStorage "family-iot").1 (by decide),
   by decide,
   (scenario_route_amended mkMemStorage "no-such-scenario").1 (by decide)⟩

/-- C2: both endpoints are read-only: handling any request returns the store
unchanged, and the constructed store holds exactly the three scenarios
installed by the MemStorage constructor, keyed by their ids, unchanged. -/
theorem routes_readonly :
    (∀ id : String,
      (handleGetScenarioById mkMemStorage id).2 = mkMemStorage) ∧
    (handleGetScenarios mkMemStorage).2 = mkMemStorage ∧
    mkMemStorage.scenarios =
      [(familyIoTScenario.id, familyIoTScenario),
       (smallBusinessScenario.id, smallBusinessScenario),
       (hotelPublicScenario.id, hotelPublicScenario)] := by
  refine ⟨?_, rfl, by decide⟩
  intro id
  unfold handleGetScenarioById
  split
  · rfl
  · split <;> rfl

/-! ## Key-parity validation (scripts/i18n-validate.js, validateKeyParity) -/

/-- The plural suffixes recognised by the validator. -/
def PLURAL_SUFFIXES : List String :=
  ["_zero", "_one", "_two", "_few", "_many", "_other"]

/-- Embedding of JS key.endsWith(sfx). -/
def strEndsWith (key sfx : String) : Bool :=
  sfx.data.isSuffixOf key.data

/-- Embedding of isPluralKey. -/
def isPluralKey (key : String) : Bool :=
  PLURAL_SUFFIXES.any (fun sfx => strEndsWith key sfx)

/-- Embedding of getBasePluralKey: strip the first matching plural suffix,
or return the key unchanged. -/
def getBasePluralKey (key : String) : String :=
  match PLURAL_SUFFIXES.find? (fun sfx => strEndsWith key sfx) with
  | some sfx => String.mk (key.data.take (key.data.length - sfx.data.length))
  | none => key

/-- Plural bases present in a key list (the basePluralBases and
targetPluralBases sets of validateKeyParity). -/
def pluralBases (keys : List String) : List String :=
  (keys.filter isPluralKey).map getBasePluralKey

/-- The missingKeys list of validateKeyParity: base keys absent from the
target, except plural keys whose plural base is present among the target's
plural bases. -/
def missingKeys (baseKeys targetKeys : List String) : List String :=
  baseKeys.filter (fun k =>
    !targetKeys.contains k &&
    !(isPluralKey k && (pluralBases targetKeys).contains (getBasePluralKey k)))

/-- The extraKeys list of validateKeyParity: target keys absent from the
base, under the symmetric plural-family exemption. -/
def extraKeys (baseKeys targetKeys : List String) : List String :=
  targetKeys.filter (fun k =>
    !baseKeys.contains k &&
    !(isPluralKey k && (pluralBases baseKeys).contains (getBasePluralKey k)))

/-- C8: a base key is reported missing exactly when it is absent from the
target key set, except that a key carrying a plural suffix is exempt when the
target has some plural key with the same plural base; symmetrically for the
extra keys of the target. -/
theorem validateKeyParity_spec (baseKeys targetKeys : List String)
    (k : String) :
    (k ∈ missingKeys baseKeys targetKeys ↔
      k ∈ baseKeys ∧ k ∉ targetKeys ∧
      ¬(isPluralKey k = true ∧ ∃ k' ∈ targetKeys, isPluralKey k' = true ∧
        getBasePluralKey k' = getBasePluralKey k)) ∧
    (k ∈ extraKeys baseKeys targetKeys ↔
      k ∈ targetKeys ∧ k ∉ baseKeys ∧
      ¬(isPluralKey k = true ∧ ∃ k' ∈ baseKeys, isPluralKey k' = true ∧
        getBasePluralKey k' = getBasePluralKey k)) := by
  have hmem : ∀ (other : List String) (b : String),
      (pluralBases other).contains b = true ↔
        ∃ k' ∈ other, isPluralKey k' = true ∧ getBasePluralKey k' = b := by
    intro other b
    simp only [pluralBases, List.elem_iff, List.mem_map, List.mem_filter]
    constructor
    · rintro ⟨k', ⟨hk1, hk2⟩, hk3⟩
      exact ⟨k', hk1, hk2, hk3⟩
    · rintro ⟨k', hk1, hk2, hk3⟩
      exact ⟨k', ⟨hk1, hk2⟩, hk3⟩
  constructor
  · rw [missingKeys, List.mem_filter]
    simp only [Bool.and_eq_true, Bool.not_eq_true', Bool.eq_false_iff, ne_eq,
      List.elem_iff, hmem]
  · rw [extraKeys, List.mem_filter]
    simp only [Bool.and_eq_true, Bool.not_eq_true', Bool.eq_false_iff, ne_eq,
      List.elem_iff, hmem]

/-! ## Determinism and input preservation of the derived-state computations -/

theorem filter_if_sublist (c : Prop) [Decidable c] (p : Device → Bool)
    (l : List Device) : (if c then l.filter p else l).Sublist l := by
  split
  · exact List.filter_sublist l
  · exact List.Sublist.refl l

/-- C9: the three client-side derived-state computations are deterministic
pure functions: equal inputs give equal outputs, and the device filter
returns a sublist of its input device list, so the input devices appear in
the output unchanged. -/
theorem derived_state_pure :
    (∀ (d1 d2 : List Device) (n1 n2 : List Network) (f1 f2 : DeviceFilters),
      d1 = d2 → n1 = n2 → f1 = f2 →
      useDeviceFilter d1 n1 f1 = useDeviceFilter d2 n2 f2) ∧
    (∀ a b : Device, a = b → getEncryptionStatus a = getEncryptionStatus b) ∧
    (∀ s1 s2 : Scenario, s1 = s2 → devicePositions s1 = devicePositions s2) ∧
    (∀ (devices : List Device) (networks : List Network) (f : DeviceFilters),
      (useDeviceFilter devices networks f).Sublist devices) := by
  refine ⟨?_, ?_, ?_, ?_⟩
  · rintro d1 _ n1 _ f1 _ rfl rfl rfl
    rfl
  · rintro a _ rfl
    rfl
  · rintro s1 _ rfl
    rfl
  · intro devices networks f
    unfold useDeviceFilter
    exact ((filter_if_sublist _ _ _).trans
      ((filter_if_sublist _ _ _).trans
        ((filter_if_sublist _ _ _).trans (filter_if_sublist _ _ _))))

/-- C9 witness: the purity theorem evaluated at concrete inputs. -/
theorem derived_state_pure_witness :
    useDeviceFilter [exRouter, exLaptop] [] ⟨"", [], [], false⟩ =
      useDeviceFilter [exRouter, exLaptop] [] ⟨"", [], [], false⟩ ∧
    getEncryptionStatus exRouter = getEncryptionStatus exRouter ∧
    devicePositions exampleScenario = devicePositions exampleScenario ∧
    (useDeviceFilter [exRouter, exLaptop] []
      ⟨"", [], [], false⟩).Sublist [exRouter, exLaptop] :=
  ⟨derived_state_pure.1 _ _ _ _ _ _ rfl rfl rfl,
   derived_state_pure.2.1 _ _ rfl,
   derived_state_pure.2.2.1 _ _ rfl,
   derived_state_pure.2.2.2 _ _ _⟩

end NetCarto
